import Mathlib

/- Verification of the redaction-session lifecycle implemented in src/main.py and
src/core/redis_client.py, against its design specification.  The embedding models:
the base64 transport encoding of keys (Python base64.urlsafe_b64encode / urlsafe_b64decode,
bytes as Nat < 256, characters as Char), the per-item authenticated encryption consumed
from core/security.py, the engine capability consumed from core/engine.py, the redis store
with per-entry expiry, and the four HTTP endpoints of main.py as pure functions from an
explicit state and the request-scoped nondeterministic inputs (generated uuid, generated key,
engine outcome, store-write outcome, current time) to a response together with the state and
file effects of the request.  JSON serialization of the stored payload (json.dumps/json.loads
round trip) is modelled as the identity on the structured payload. -/

deriving instance DecidableEq for Except

/-- The URL-safe base64 alphabet (RFC 4648 with - and _), as used by
Python `base64.urlsafe_b64encode`. -/
def b64UrlAlphabet : List Char :=
  ['A', 'B', 'C', 'D', 'E', 'F', 'G', 'H', 'I', 'J', 'K', 'L', 'M',
   'N', 'O', 'P', 'Q', 'R', 'S', 'T', 'U', 'V', 'W', 'X', 'Y', 'Z',
   'a', 'b', 'c', 'd', 'e', 'f', 'g', 'h', 'i', 'j', 'k', 'l', 'm',
   'n', 'o', 'p', 'q', 'r', 's', 't', 'u', 'v', 'w', 'x', 'y', 'z',
   '0', '1', '2', '3', '4', '5', '6', '7', '8', '9', '-', '_']

/-- The standard base64 alphabet; `urlsafe_b64decode` first translates - to + and _ to /
and then decodes with this alphabet. -/
def b64StdAlphabet : List Char :=
  ['A', 'B', 'C', 'D', 'E', 'F', 'G', 'H', 'I', 'J', 'K', 'L', 'M',
   'N', 'O', 'P', 'Q', 'R', 'S', 'T', 'U', 'V', 'W', 'X', 'Y', 'Z',
   'a', 'b', 'c', 'd', 'e', 'f', 'g', 'h', 'i', 'j', 'k', 'l', 'm',
   'n', 'o', 'p', 'q', 'r', 's', 't', 'u', 'v', 'w', 'x', 'y', 'z',
   '0', '1', '2', '3', '4', '5', '6', '7', '8', '9', '+', '/']

def charOfSextet (v : Nat) : Char := b64UrlAlphabet.getD v 'A'

/-- The character translation performed by `base64.urlsafe_b64decode` before decoding. -/
def urlsafeTranslate (c : Char) : Char :=
  if c = '-' then '+' else if c = '_' then '/' else c

def isStdB64Char (c : Char) : Bool := b64StdAlphabet.contains c

def stdSextetOfChar (c : Char) : Nat := b64StdAlphabet.indexOf c

/-- Python `base64.urlsafe_b64encode` on a byte string (bytes as Nat < 256): groups of
three bytes become four alphabet characters, a trailing group of one or two bytes is
completed with `=` padding. -/
def b64EncodeBytes : List Nat → List Char
  | b0 :: b1 :: b2 :: rest =>
      charOfSextet (b0 / 4) :: charOfSextet (b0 % 4 * 16 + b1 / 16) ::
        charOfSextet (b1 % 16 * 4 + b2 / 64) :: charOfSextet (b2 % 64) :: b64EncodeBytes rest
  | [b0] => [charOfSextet (b0 / 4), charOfSextet (b0 % 4 * 16), '=', '=']
  | [b0, b1] =>
      [charOfSextet (b0 / 4), charOfSextet (b0 % 4 * 16 + b1 / 16), charOfSextet (b1 % 16 * 4)]
        ++ ['=']
  | [] => []

/-- The data characters of the base64 encoding (everything before the padding). -/
def b64DataChars : List Nat → List Char
  | b0 :: b1 :: b2 :: rest =>
      charOfSextet (b0 / 4) :: charOfSextet (b0 % 4 * 16 + b1 / 16) ::
        charOfSextet (b1 % 16 * 4 + b2 / 64) :: charOfSextet (b2 % 64) :: b64DataChars rest
  | [b0] => [charOfSextet (b0 / 4), charOfSextet (b0 % 4 * 16)]
  | [b0, b1] =>
      [charOfSextet (b0 / 4), charOfSextet (b0 % 4 * 16 + b1 / 16), charOfSextet (b1 % 16 * 4)]
  | [] => []

/-- The padding characters of the base64 encoding. -/
def b64PadChars : List Nat → List Char
  | _ :: _ :: _ :: rest => b64PadChars rest
  | [_] => ['=', '=']
  | [_, _] => ['=']
  | [] => []

/-- The CPython binascii a2b_base64 loop in non-strict mode (the backend of
base64.b64decode with validate=False), as a state machine over the input characters:
`qp` is the position in the current four-character quantum, `left` the pending bits of
the preceding data characters, `pads` the count of padding characters seen since the
last data character, `acc` the bytes emitted so far.  Characters outside the alphabet
are skipped; a padding character at quantum position below two is skipped as well
(decoding resumes on later data characters), while one that completes a quantum holding
at least two data characters ends decoding successfully, ignoring the rest of the
input; input that ends mid-quantum raises (`none`): a remainder of one data character
is invalid, a remainder of two or three lacks its padding. -/
def a2bBase64Loop : List Char → Nat → Nat → Nat → List Nat → Option (List Nat)
  | [], qp, _, _, acc => if qp = 0 then some acc else none
  | c :: rest, qp, left, pads, acc =>
      if c = '=' then
        if 2 ≤ qp ∧ 4 ≤ qp + (pads + 1) then some acc
        else a2bBase64Loop rest qp left (pads + 1) acc
      else if isStdB64Char c then
        match qp with
        | 0 => a2bBase64Loop rest 1 (stdSextetOfChar c) 0 acc
        | 1 => a2bBase64Loop rest 2 (stdSextetOfChar c % 16) 0
            (acc ++ [left * 4 + stdSextetOfChar c / 16])
        | 2 => a2bBase64Loop rest 3 (stdSextetOfChar c % 4) 0
            (acc ++ [left * 16 + stdSextetOfChar c / 4])
        | _ => a2bBase64Loop rest 0 0 0 (acc ++ [left * 64 + stdSextetOfChar c])
      else a2bBase64Loop rest qp left pads acc

/-- Python `base64.urlsafe_b64decode` on a str argument: non-ASCII input raises; the
input is translated (- to +, _ to /) and fed to the non-strict base64 machine.
`none` models the raised exception. -/
def pyUrlsafeB64Decode (s : List Char) : Option (List Nat) :=
  if s.any (fun c => 128 ≤ c.toNat) then none
  else a2bBase64Loop (s.map urlsafeTranslate) 0 0 0 []

/-- Ciphertext of one PII item.  Modelled from the spec: `core/security.py` is not under
`src/` (only imported by main.py); per spec section 4.1 and 4.5 the crypto capability is
authenticated symmetric encryption whose decryption deterministically detects a wrong key,
so a ciphertext is modelled as the pair of the encrypting key and the plaintext. -/
structure Ciphertext where
  ckey : List Nat
  plain : String
deriving DecidableEq

/-- Modelled from the spec: `core/security.py` encrypt of one text with a session key. -/
def encrypt_text (key : List Nat) (t : String) : Ciphertext := ⟨key, t⟩

/-- Modelled from the spec: `core/security.py` authenticated decrypt; it raises ValueError
(here `none`) exactly when the supplied key is not the encrypting key. -/
def decrypt_text (key : List Nat) (c : Ciphertext) : Option String :=
  if c.ckey = key then some c.plain else none

/-- One extracted sensitive item: plaintext and its bounding box.  Bounding boxes are only
carried, never computed on, so their coordinates are modelled as integers. -/
structure PiiItem where
  text : String
  bbox : List Int
deriving DecidableEq

/-- One stored item: ciphertext of the text plus the unencrypted bounding box. -/
structure EncItem where
  encrypted_text : Ciphertext
  bbox : List Int
deriving DecidableEq

abbrev Pages := List (String × List PiiItem)

abbrev EncPages := List (String × List EncItem)

/-- Per-item independent encryption of the extracted pages structure, as the engine
performs it with the session key before main.py stores it. -/
def encryptPages (key : List Nat) (p : Pages) : EncPages :=
  p.map (fun pg => (pg.1, pg.2.map (fun it => EncItem.mk (encrypt_text key it.text) it.bbox)))

/-- Decrypt every item of one page; any failing item fails the whole list (the loop in
decrypt_endpoint raises out of the whole request, atomically). -/
def decryptItems (key : List Nat) : List EncItem → Option (List PiiItem)
  | [] => some []
  | it :: rest =>
      match decrypt_text key it.encrypted_text with
      | none => none
      | some t =>
          match decryptItems key rest with
          | none => none
          | some l => some (PiiItem.mk t it.bbox :: l)

/-- Decrypt every item of every page; atomic: any failing item fails the whole result. -/
def decryptPages (key : List Nat) : EncPages → Option Pages
  | [] => some []
  | pg :: rest =>
      match decryptItems key pg.2 with
      | none => none
      | some l =>
          match decryptPages key rest with
          | none => none
          | some p => some ((pg.1, l) :: p)

/-- The redis store: entries are (document_id, payload, absolute expiry time).  The JSON
serialization of the payload is modelled as the identity. -/
structure RedisStore where
  entries : List (String × EncPages × Nat)
deriving DecidableEq

/-- redis SET with EX: stores the payload under the id, replacing any previous entry, with
absolute expiry now + ex seconds. -/
def RedisStore.set (st : RedisStore) (id : String) (v : EncPages) (ex : Nat) (now : Nat) :
    RedisStore :=
  ⟨(id, v, now + ex) :: st.entries.filter (fun e => e.1 ≠ id)⟩

/-- redis GET at time now: returns the payload if the entry exists and has not expired,
otherwise nil; an expired entry is indistinguishable from an absent one. -/
def RedisStore.get (st : RedisStore) (id : String) (now : Nat) : Option EncPages :=
  match st.entries.find? (fun e => e.1 == id) with
  | some e => if now < e.2.2 then some e.2.1 else none
  | none => none

/-- The error outcomes of the endpoints: HTTP 404 (document id not found), 400 (invalid
key format), 403 (decryption failed) and 500 (engine, store or un-redaction failure,
carrying only the detail string built from the exception message). -/
inductive HErr where
  | sessionNotFound
  | invalidKeyFormat
  | decryptionFailed
  | serverError (detail : String)
deriving DecidableEq

/-- Modelled from the spec: `core/engine.py` is not under `src/` (only imported).  Per
spec section 4.3 an engine run either fails wholly or returns a redacted artifact plus the
extracted items (absent, modelled as the empty pages list, when nothing was extracted); the
call sites in main.py pass the session key in and receive the metadata already encrypted
per item.  The extraction outcome itself (content detection is out of scope) is the
`outcome` parameter; this function adds the per-item encryption with the session key. -/
def process_document (outcome : Except String (String × Pages)) (key : List Nat) :
    Except String (String × EncPages) :=
  match outcome with
  | .error e => .error e
  | .ok r => .ok (r.1, encryptPages key r.2)

/-- The success payload of a redaction response: the redacted artifact (FileResponse path)
and the X-Document-ID and X-Decryption-Key headers. -/
structure RedactOk where
  artifactPath : String
  documentId : String
  keyHeader : List Char
deriving DecidableEq

/-- Observable outcome of one redaction request: the response, the resulting redis store,
the files written while handling the request (the saved upload, and the artifact when the
engine produced one), and the paths passed to the deferred cleanup_files background task. -/
structure RedactResult where
  response : Except HErr RedactOk
  store : RedisStore
  writtenFiles : List String
  cleanupScheduled : List String
deriving DecidableEq

/-- The shared body of redact_llm_endpoint and redact_classic_endpoint in main.py (the two
differ only in which engine function they call; the engine outcome is the parameter):
save the upload; run the engine; if it returned metadata, redis SET it under the fresh
document_id with ex=86400; schedule cleanup of upload and artifact; answer with the
artifact and the (X-Document-ID, X-Decryption-Key) headers.  Any exception from the engine
or the store write is answered as a 500 whose detail is built only from the exception
message, and then only the upload is scheduled for cleanup. -/
def redact_endpoint (st : RedisStore) (now : Nat) (fileName uuid1 docId : String)
    (key : List Nat) (engineOutcome : Except String (String × Pages))
    (storeWrite : Except String Unit) : RedactResult :=
  let inputPath := "temp_uploads/" ++ uuid1 ++ "_" ++ fileName
  match process_document engineOutcome key with
  | .error e =>
      ⟨.error (.serverError ("An error occurred: " ++ e)), st, [inputPath], [inputPath]⟩
  | .ok r =>
      if r.2.isEmpty then
        ⟨.ok ⟨r.1, docId, b64EncodeBytes key⟩, st, [inputPath, r.1], [inputPath, r.1]⟩
      else
        match storeWrite with
        | .ok _ =>
            ⟨.ok ⟨r.1, docId, b64EncodeBytes key⟩, st.set docId r.2 86400 now,
              [inputPath, r.1], [inputPath, r.1]⟩
        | .error m =>
            ⟨.error (.serverError ("An error occurred: " ++ m)), st, [inputPath, r.1],
              [inputPath]⟩

/-- main.py redact_llm_endpoint; its body is redact_endpoint with the LLM vision engine
outcome passed in. -/
def redact_llm_endpoint := redact_endpoint

/-- main.py redact_classic_endpoint; its body is redact_endpoint with the classic engine
outcome passed in. -/
def redact_classic_endpoint := redact_endpoint

/-- The structure decrypt_endpoint reads from.  ENCRYPTED_DATA_STORE is referenced in
main.py but defined nowhere in src/; modelled from the spec (section 9 design note): a
structure distinct from the redis store that the redact and unredact flows use, which no
endpoint ever writes, so that in every reachable state it is empty. -/
abbrev EdsStore := List (String × EncPages)

/-- The response model of the decrypt endpoint (source: DecryptionResponse). -/
structure DecryptionResponse where
  document_id : String
  pages : Pages
deriving DecidableEq

/-- main.py decrypt_endpoint: look the id up in ENCRYPTED_DATA_STORE (404 when absent),
then base64-decode the key (400 when it raises), then decrypt every item of every page,
a ValueError from any item answering 403 for the whole request; on success return the
pages with plaintext restored and bounding boxes unchanged. -/
def decrypt_endpoint (eds : EdsStore) (document_id : String) (decryption_key : List Char) :
    Except HErr DecryptionResponse :=
  match eds.find? (fun e => e.1 == document_id) with
  | none => .error .sessionNotFound
  | some e =>
      match pyUrlsafeB64Decode decryption_key with
      | none => .error .invalidKeyFormat
      | some key =>
          match decryptPages key e.2 with
          | none => .error .decryptionFailed
          | some pages => .ok ⟨document_id, pages⟩

/-- Observable outcome of one unredact request: the response (restored file path on
success), the files written while handling the request, and the paths passed to the
deferred cleanup_files background task. -/
structure UnredactResult where
  response : Except HErr String
  writtenFiles : List String
  cleanupScheduled : List String
deriving DecidableEq

/-- Modelled from the spec: `core/engine.py` unredact_document is not under `src/`.  Per
spec section 4.6 it decrypts all stored items with the supplied key (atomically: any
failure fails the whole call) and reinserts them into the supplied artifact; document
reconstruction itself is out of scope, so its outcome (restored file path, or a
reconstruction failure) is the `reconstruct` parameter, reached only when every item
decrypted. -/
def unredact_document (key : List Nat) (meta : EncPages)
    (reconstruct : Except String String) : Except String String :=
  match decryptPages key meta with
  | none => .error "decryption failed"
  | some _ => reconstruct

/-- main.py unredact_endpoint: redis GET the id at the current time (404 when nil);
json-load the payload; base64-decode the key (400 when it raises); only then save the
uploaded redacted file; run unredact_document, a raise answering 500 with cleanup of the
temp file only; on success schedule cleanup of the temp and restored files and answer
with the restored file. -/
def unredact_endpoint (st : RedisStore) (now : Nat) (fileName uuid1 : String)
    (document_id : String) (decryption_key : List Char)
    (reconstruct : Except String String) : UnredactResult :=
  match st.get document_id now with
  | none => ⟨.error .sessionNotFound, [], []⟩
  | some meta =>
      match pyUrlsafeB64Decode decryption_key with
      | none => ⟨.error .invalidKeyFormat, [], []⟩
      | some key =>
          match unredact_document key meta reconstruct with
          | .error e =>
              ⟨.error (.serverError ("An error occurred during un-redaction: " ++ e)),
                ["temp_uploads/" ++ uuid1 ++ "_" ++ fileName],
                ["temp_uploads/" ++ uuid1 ++ "_" ++ fileName]⟩
          | .ok restored =>
              ⟨.ok restored,
                ["temp_uploads/" ++ uuid1 ++ "_" ++ fileName, restored],
                ["temp_uploads/" ++ uuid1 ++ "_" ++ fileName, restored]⟩

/-- Modelled from the spec: `core/security.py` generate_key is not under `src/`; per spec
section 4.1 it produces a cryptographically random symmetric key of fixed length; the key
space is modelled as byte strings of a fixed length of 32. -/
def generate_key_fixed (k : List Nat) : Prop := k.length = 32 ∧ ∀ b ∈ k, b < 256

/-- Pointwise facts about the encoding alphabet, proved by evaluation over Fin 64. -/
theorem charOfSextet_facts (v : Nat) (h : v < 64) :
    isStdB64Char (urlsafeTranslate (charOfSextet v)) = true ∧
    urlsafeTranslate (charOfSextet v) ≠ '=' ∧
    (charOfSextet v).toNat < 128 ∧
    stdSextetOfChar (urlsafeTranslate (charOfSextet v)) = v := by
  have hall : ∀ w : Fin 64,
      isStdB64Char (urlsafeTranslate (charOfSextet w.val)) = true ∧
      urlsafeTranslate (charOfSextet w.val) ≠ '=' ∧
      (charOfSextet w.val).toNat < 128 ∧
      stdSextetOfChar (urlsafeTranslate (charOfSextet w.val)) = w.val := by decide
  exact hall ⟨v, h⟩

theorem b64_encode_split : ∀ k : List Nat, b64EncodeBytes k = b64DataChars k ++ b64PadChars k
  | [] => rfl
  | [_] => rfl
  | [_, _] => rfl
  | b0 :: b1 :: b2 :: rest => by
      simp [b64EncodeBytes, b64DataChars, b64PadChars, b64_encode_split rest]

theorem b64DataChars_mem :
    ∀ k : List Nat, (∀ b ∈ k, b < 256) → ∀ c ∈ b64DataChars k, ∃ v, v < 64 ∧ c = charOfSextet v
  | [], _, c, hc => by simp [b64DataChars] at hc
  | [b0], hk, c, hc => by
      have hb0 : b0 < 256 := hk b0 (by simp)
      simp [b64DataChars] at hc
      rcases hc with h | h
      · exact ⟨b0 / 4, by omega, h⟩
      · exact ⟨b0 % 4 * 16, by omega, h⟩
  | [b0, b1], hk, c, hc => by
      have hb0 : b0 < 256 := hk b0 (by simp)
      have hb1 : b1 < 256 := hk b1 (by simp)
      simp [b64DataChars] at hc
      rcases hc with h | h | h
      · exact ⟨b0 / 4, by omega, h⟩
      · exact ⟨b0 % 4 * 16 + b1 / 16, by omega, h⟩
      · exact ⟨b1 % 16 * 4, by omega, h⟩
  | b0 :: b1 :: b2 :: rest, hk, c, hc => by
      have hb0 : b0 < 256 := hk b0 (by simp)
      have hb1 : b1 < 256 := hk b1 (by simp)
      have hb2 : b2 < 256 := hk b2 (by simp)
      have hrest : ∀ b ∈ rest, b < 256 := fun b hb => hk b (by simp [hb])
      simp only [b64DataChars, List.mem_cons] at hc
      rcases hc with h | h | h | h | h
      · exact ⟨b0 / 4, by omega, h⟩
      · exact ⟨b0 % 4 * 16 + b1 / 16, by omega, h⟩
      · exact ⟨b1 % 16 * 4 + b2 / 64, by omega, h⟩
      · exact ⟨b2 % 64, by omega, h⟩
      · exact b64DataChars_mem rest hrest c h

theorem b64PadChars_mem : ∀ k : List Nat, ∀ c ∈ b64PadChars k, c = '='
  | [], c, hc => by simp [b64PadChars] at hc
  | [_], c, hc => by simpa [b64PadChars] using hc
  | [_, _], c, hc => by simpa [b64PadChars] using hc
  | _ :: _ :: _ :: rest, c, hc => b64PadChars_mem rest c hc

/-- Length of the base64 encoding: four characters for every started group of three
bytes; in particular it depends only on the length of the input. -/
theorem b64EncodeBytes_length : ∀ k : List Nat, (b64EncodeBytes k).length = 4 * ((k.length + 2) / 3)
  | [] => rfl
  | [_] => by simp [b64EncodeBytes]
  | [_, _] => by simp [b64EncodeBytes]
  | _ :: _ :: _ :: rest => by
      simp only [b64EncodeBytes, List.length_cons, b64EncodeBytes_length rest]
      omega

/-- The base64 machine consumes the translated encoding of a byte string from a clean
quantum state and appends exactly that byte string to the accumulator. -/
theorem a2bBase64Loop_encode :
    ∀ k : List Nat, (∀ b ∈ k, b < 256) → ∀ acc : List Nat,
      a2bBase64Loop ((b64EncodeBytes k).map urlsafeTranslate) 0 0 0 acc = some (acc ++ k)
  | [], _, acc => by simp [b64EncodeBytes, a2bBase64Loop]
  | [b0], hk, acc => by
      have hb0 : b0 < 256 := hk b0 (by simp)
      obtain ⟨hstd0, hne0, _, hval0⟩ := charOfSextet_facts (b0 / 4) (by omega)
      obtain ⟨hstd1, hne1, _, hval1⟩ := charOfSextet_facts (b0 % 4 * 16) (by omega)
      have hbyte0 : b0 / 4 * 4 + b0 % 4 * 16 / 16 = b0 := by omega
      simp [b64EncodeBytes, a2bBase64Loop, hstd0, hstd1, hval0, hval1, hne0, hne1, hbyte0,
        show urlsafeTranslate '=' = '=' from rfl]
      omega
  | [b0, b1], hk, acc => by
      have hb0 : b0 < 256 := hk b0 (by simp)
      have hb1 : b1 < 256 := hk b1 (by simp)
      obtain ⟨hstd0, hne0, _, hval0⟩ := charOfSextet_facts (b0 / 4) (by omega)
      obtain ⟨hstd1, hne1, _, hval1⟩ := charOfSextet_facts (b0 % 4 * 16 + b1 / 16) (by omega)
      obtain ⟨hstd2, hne2, _, hval2⟩ := charOfSextet_facts (b1 % 16 * 4) (by omega)
      have hbyte0 : b0 / 4 * 4 + (b0 % 4 * 16 + b1 / 16) / 16 = b0 := by omega
      have hbyte1 : (b0 % 4 * 16 + b1 / 16) % 16 * 16 + b1 % 16 * 4 / 4 = b1 := by omega
      simp [b64EncodeBytes, a2bBase64Loop, hstd0, hstd1, hstd2, hval0, hval1, hval2,
        hne0, hne1, hne2, hbyte0, hbyte1, show urlsafeTranslate '=' = '=' from rfl]
      omega
  | b0 :: b1 :: b2 :: rest, hk, acc => by
      have hb0 : b0 < 256 := hk b0 (by simp)
      have hb1 : b1 < 256 := hk b1 (by simp)
      have hb2 : b2 < 256 := hk b2 (by simp)
      have hrest : ∀ b ∈ rest, b < 256 := fun b hb => hk b (by simp [hb])
      obtain ⟨hstd0, hne0, _, hval0⟩ := charOfSextet_facts (b0 / 4) (by omega)
      obtain ⟨hstd1, hne1, _, hval1⟩ := charOfSextet_facts (b0 % 4 * 16 + b1 / 16) (by omega)
      obtain ⟨hstd2, hne2, _, hval2⟩ := charOfSextet_facts (b1 % 16 * 4 + b2 / 64) (by omega)
      obtain ⟨hstd3, hne3, _, hval3⟩ := charOfSextet_facts (b2 % 64) (by omega)
      have hbyte0 : b0 / 4 * 4 + (b0 % 4 * 16 + b1 / 16) / 16 = b0 := by omega
      have hbyte1 : (b0 % 4 * 16 + b1 / 16) % 16 * 16 + (b1 % 16 * 4 + b2 / 64) / 4 = b1 := by
        omega
      have hbyte2 : (b1 % 16 * 4 + b2 / 64) % 4 * 64 + b2 % 64 = b2 := by omega
      have ih := a2bBase64Loop_encode rest hrest (acc ++ [b0, b1, b2])
      simp only [List.append_assoc, List.cons_append, List.nil_append] at ih
      simp [b64EncodeBytes, a2bBase64Loop, hstd0, hstd1, hstd2, hstd3, hval0, hval1, hval2,
        hval3, hne0, hne1, hne2, hne3, hbyte0, hbyte1, hbyte2, ih]

/-- Round trip of the transport encoding: decoding the urlsafe base64 encoding of any
byte string gives back exactly that byte string. -/
theorem b64_decode_encode (k : List Nat) (hk : ∀ b ∈ k, b < 256) :
    pyUrlsafeB64Decode (b64EncodeBytes k) = some k := by
  have hmemD := b64DataChars_mem k hk
  have hmemP := b64PadChars_mem k
  have hsplit := b64_encode_split k
  have hascii : (b64EncodeBytes k).any (fun c => decide (128 ≤ c.toNat)) = false := by
    rw [List.any_eq_false]
    intro c hc
    rw [hsplit, List.mem_append] at hc
    rcases hc with hc | hc
    · rcases hmemD c hc with ⟨v, hv, rfl⟩
      simpa using Nat.not_le.mpr (charOfSextet_facts v hv).2.2.1
    · rw [hmemP c hc]
      simp
  rw [pyUrlsafeB64Decode, hascii]
  simpa using a2bBase64Loop_encode k hk []

/-- The pad-resumption corner cases of the non-strict decoder, matching CPython: a pad
completing a quantum of two data characters with interleaved resumption decodes, while
trailing data after a skipped pad that leaves the final quantum incomplete raises. -/
theorem pyUrlsafeB64Decode_pad_resume :
    pyUrlsafeB64Decode "AA=A=".toList = some [0, 0] ∧
    pyUrlsafeB64Decode "aaaa=a".toList = none := by
  refine ⟨by decide, by decide⟩

/-- Alphabet membership of every encoding character, by evaluation over Fin 64. -/
theorem charOfSextet_mem_alphabet (v : Nat) (h : v < 64) : charOfSextet v ∈ b64UrlAlphabet := by
  have hall : ∀ w : Fin 64, charOfSextet w.val ∈ b64UrlAlphabet := by decide
  exact hall ⟨v, h⟩

theorem decrypt_text_encrypt_text (key : List Nat) (t : String) :
    decrypt_text key (encrypt_text key t) = some t := by
  simp [decrypt_text, encrypt_text]

theorem decryptItems_encryptItems (key : List Nat) (l : List PiiItem) :
    decryptItems key (l.map (fun it => EncItem.mk (encrypt_text key it.text) it.bbox)) = some l := by
  induction l with
  | nil => rfl
  | cons it rest ih => simp only [List.map_cons, decryptItems, decrypt_text_encrypt_text, ih]

/-- Decrypting with the issued key restores exactly the extracted items, bounding boxes
unchanged. -/
theorem decryptPages_encryptPages (key : List Nat) (p : Pages) :
    decryptPages key (encryptPages key p) = some p := by
  induction p with
  | nil => rfl
  | cons pg rest ih =>
      simp only [encryptPages, List.map_cons] at *
      simp [decryptPages, decryptItems_encryptItems, ih]

theorem encryptPages_isEmpty (key : List Nat) (p : Pages) :
    (encryptPages key p).isEmpty = p.isEmpty := by
  cases p <;> rfl

/-- Looking up the id just written: present until the absolute expiry, gone from it on. -/
theorem RedisStore.get_set_self (st : RedisStore) (id : String) (v : EncPages)
    (ex now t : Nat) : (st.set id v ex now).get id t = if t < now + ex then some v else none := by
  simp [RedisStore.set, RedisStore.get, List.find?]

/-- Looking up an id that no entry carries gives nil. -/
theorem RedisStore.get_of_absent (st : RedisStore) (id : String) (t : Nat)
    (h : ∀ e ∈ st.entries, e.1 ≠ id) : st.get id t = none := by
  rw [RedisStore.get, List.find?_eq_none.mpr]
  intro e he
  simpa using h e he

/-- C3: for every document where the engine extracts zero items, no store entry is
created for the generated document_id — the redis store is unchanged, while the response
still succeeds and carries the document_id — and any later Restore or Decrypt on that
document_id fails with SessionNotFound, for both engine variants. -/
theorem C3_zero_items_no_entry (st : RedisStore) (now : Nat)
    (fileName uuid1 docId : String) (key : List Nat) (artifact : String)
    (storeWrite : Except String Unit)
    (hfresh : ∀ e ∈ st.entries, e.1 ≠ docId) :
    (redact_llm_endpoint st now fileName uuid1 docId key (.ok (artifact, [])) storeWrite).store
        = st ∧
    (redact_llm_endpoint st now fileName uuid1 docId key (.ok (artifact, []))
        storeWrite).response = .ok ⟨artifact, docId, b64EncodeBytes key⟩ ∧
    (redact_classic_endpoint st now fileName uuid1 docId key (.ok (artifact, []))
        storeWrite).store = st ∧
    (redact_classic_endpoint st now fileName uuid1 docId key (.ok (artifact, []))
        storeWrite).response = .ok ⟨artifact, docId, b64EncodeBytes key⟩ ∧
    (∀ (t : Nat) (k2 : List Char) (f2 u2 : String) (rec : Except String String),
      unredact_endpoint st t f2 u2 docId k2 rec = ⟨.error .sessionNotFound, [], []⟩) ∧
    ∀ k2 : List Char, decrypt_endpoint [] docId k2 = .error .sessionNotFound := by
  refine ⟨?_, ?_, ?_, ?_, ?_, ?_⟩
  · simp [redact_llm_endpoint, redact_endpoint, process_document, encryptPages]
  · simp [redact_llm_endpoint, redact_endpoint, process_document, encryptPages]
  · simp [redact_classic_endpoint, redact_endpoint, process_document, encryptPages]
  · simp [redact_classic_endpoint, redact_endpoint, process_document, encryptPages]
  · intro t k2 f2 u2 rec
    simp [unredact_endpoint, RedisStore.get_of_absent st docId t hfresh]
  · intro k2
    simp [decrypt_endpoint, List.find?]

theorem C3_witness :
    (redact_llm_endpoint ⟨[]⟩ 0 "f.pdf" "u1" "d1" (List.replicate 32 1)
        (.ok ("redacted_files/out.pdf", [])) (.ok ())).store = ⟨[]⟩ :=
  (C3_zero_items_no_entry ⟨[]⟩ 0 "f.pdf" "u1" "d1" (List.replicate 32 1)
      "redacted_files/out.pdf" (.ok ()) (by simp)).1

/-- C6: every store write made at redaction time stores the entry with the fixed ttl of
86400 seconds (absolute expiry now + 86400), for both engine variants, and from any time
at least 86400 seconds after the write, Restore on that document_id with any key fails
with SessionNotFound with the very same result as on a store in which the document_id
never existed, and Decrypt fails with SessionNotFound as well. -/
theorem C6_ttl_86400_and_expiry (st : RedisStore) (now : Nat)
    (fileName uuid1 docId : String) (key : List Nat) (artifact : String) (pages : Pages)
    (hp : pages ≠ []) :
    (redact_llm_endpoint st now fileName uuid1 docId key (.ok (artifact, pages))
        (.ok ())).store.entries.head? = some (docId, encryptPages key pages, now + 86400) ∧
    (redact_classic_endpoint st now fileName uuid1 docId key (.ok (artifact, pages))
        (.ok ())).store.entries.head? = some (docId, encryptPages key pages, now + 86400) ∧
    ∀ t, now + 86400 ≤ t →
      ∀ (k2 : List Char) (f2 u2 : String) (rec : Except String String),
        unredact_endpoint (redact_llm_endpoint st now fileName uuid1 docId key
            (.ok (artifact, pages)) (.ok ())).store t f2 u2 docId k2 rec =
          ⟨.error .sessionNotFound, [], []⟩ ∧
        unredact_endpoint (redact_llm_endpoint st now fileName uuid1 docId key
            (.ok (artifact, pages)) (.ok ())).store t f2 u2 docId k2 rec =
          unredact_endpoint ⟨[]⟩ t f2 u2 docId k2 rec ∧
        decrypt_endpoint [] docId k2 = .error .sessionNotFound := by
  have hne : (encryptPages key pages).isEmpty = false := by
    rw [encryptPages_isEmpty]
    cases pages with
    | nil => exact absurd rfl hp
    | cons a l => rfl
  have hstore : (redact_llm_endpoint st now fileName uuid1 docId key (.ok (artifact, pages))
      (.ok ())).store = st.set docId (encryptPages key pages) 86400 now := by
    simp [redact_llm_endpoint, redact_endpoint, process_document, hne]
  have hstoreC : (redact_classic_endpoint st now fileName uuid1 docId key
      (.ok (artifact, pages)) (.ok ())).store = st.set docId (encryptPages key pages) 86400 now := by
    simp [redact_classic_endpoint, redact_endpoint, process_document, hne]
  refine ⟨?_, ?_, ?_⟩
  · rw [hstore]
    rfl
  · rw [hstoreC]
    rfl
  · intro t ht k2 f2 u2 rec
    have hget : (st.set docId (encryptPages key pages) 86400 now).get docId t = none := by
      rw [RedisStore.get_set_self]
      exact if_neg (by omega)
    have hempty : (RedisStore.mk []).get docId t = none := by
      simp [RedisStore.get, List.find?]
    refine ⟨?_, ?_, ?_⟩
    · rw [hstore]
      simp [unredact_endpoint, hget]
    · rw [hstore]
      simp [unredact_endpoint, hget, hempty]
    · simp [decrypt_endpoint, List.find?]

theorem C6_witness :
    (redact_llm_endpoint ⟨[]⟩ 0 "f.pdf" "u6" "d6" (List.replicate 32 6)
        (.ok ("redacted_files/out6.pdf", [("1", [⟨"Ann", [0, 1, 2, 3]⟩])]))
        (.ok ())).store.entries.head? =
      some ("d6", encryptPages (List.replicate 32 6) [("1", [⟨"Ann", [0, 1, 2, 3]⟩])], 86400) :=
  (C6_ttl_86400_and_expiry ⟨[]⟩ 0 "f.pdf" "u6" "d6" (List.replicate 32 6)
      "redacted_files/out6.pdf" [("1", [⟨"Ann", [0, 1, 2, 3]⟩])] (by decide)).1

/-- C7: a redaction request failing at the engine invocation (which covers extraction
and the per-item encryption) or at the store write leaves no partial session state:
the redis store is unchanged — in particular no entry exists under the generated
document_id — and the error response carries only the failure detail, neither the
document_id nor the key; for both engine variants. -/
theorem C7_failure_atomicity (st : RedisStore) (now : Nat) (fileName uuid1 docId : String)
    (key : List Nat) (e m artifact : String) (pages : Pages)
    (storeWrite : Except String Unit) (hp : pages ≠ [])
    (hfresh : ∀ en ∈ st.entries, en.1 ≠ docId) :
    (redact_llm_endpoint st now fileName uuid1 docId key (.error e) storeWrite).response =
      .error (.serverError ("An error occurred: " ++ e)) ∧
    (redact_llm_endpoint st now fileName uuid1 docId key (.error e) storeWrite).store = st ∧
    (redact_classic_endpoint st now fileName uuid1 docId key (.error e) storeWrite).response =
      .error (.serverError ("An error occurred: " ++ e)) ∧
    (redact_classic_endpoint st now fileName uuid1 docId key (.error e) storeWrite).store
      = st ∧
    (redact_llm_endpoint st now fileName uuid1 docId key (.ok (artifact, pages))
        (.error m)).response = .error (.serverError ("An error occurred: " ++ m)) ∧
    (redact_llm_endpoint st now fileName uuid1 docId key (.ok (artifact, pages))
        (.error m)).store = st ∧
    (redact_classic_endpoint st now fileName uuid1 docId key (.ok (artifact, pages))
        (.error m)).response = .error (.serverError ("An error occurred: " ++ m)) ∧
    (redact_classic_endpoint st now fileName uuid1 docId key (.ok (artifact, pages))
        (.error m)).store = st ∧
    ∀ t, (redact_llm_endpoint st now fileName uuid1 docId key (.ok (artifact, pages))
        (.error m)).store.get docId t = none := by
  have hne : (encryptPages key pages).isEmpty = false := by
    rw [encryptPages_isEmpty]
    cases pages with
    | nil => exact absurd rfl hp
    | cons a l => rfl
  refine ⟨rfl, rfl, rfl, rfl, ?_, ?_, ?_, ?_, ?_⟩
  · simp [redact_llm_endpoint, redact_endpoint, process_document, hne]
  · simp [redact_llm_endpoint, redact_endpoint, process_document, hne]
  · simp [redact_classic_endpoint, redact_endpoint, process_document, hne]
  · simp [redact_classic_endpoint, redact_endpoint, process_document, hne]
  · intro t
    have hst : (redact_llm_endpoint st now fileName uuid1 docId key (.ok (artifact, pages))
        (.error m)).store = st := by
      simp [redact_llm_endpoint, redact_endpoint, process_document, hne]
    rw [hst]
    exact RedisStore.get_of_absent st docId t hfresh

theorem C7_witness :
    (redact_llm_endpoint ⟨[]⟩ 0 "f.pdf" "u7" "d7" (List.replicate 32 7) (.error "engine down")
        (.ok ())).response = .error (.serverError ("An error occurred: " ++ "engine down")) :=
  (C7_failure_atomicity ⟨[]⟩ 0 "f.pdf" "u7" "d7" (List.replicate 32 7) "engine down" "m"
      "redacted_files/out7.pdf" [("1", [⟨"Ann", [0, 1, 2, 3]⟩])] (.ok ()) (by decide)
      (by simp)).1

/-- C8: the transport encoding of generated keys is URL-safe (every character of the
encoding is in the urlsafe base64 alphabet or is padding), reversible (decoding the
encoded key string returns exactly the original key), and fixed-length-preserving
(any two keys of the fixed generated length have encodings of equal length). -/
theorem C8_key_encoding_roundtrip (k k2 : List Nat) (hk : generate_key_fixed k)
    (hk2 : generate_key_fixed k2) :
    pyUrlsafeB64Decode (b64EncodeBytes k) = some k ∧
    (b64EncodeBytes k).length = (b64EncodeBytes k2).length ∧
    ∀ c ∈ b64EncodeBytes k, c ∈ b64UrlAlphabet ∨ c = '=' := by
  refine ⟨b64_decode_encode k hk.2, ?_, ?_⟩
  · rw [b64EncodeBytes_length, b64EncodeBytes_length, hk.1, hk2.1]
  · intro c hc
    rw [b64_encode_split, List.mem_append] at hc
    rcases hc with hc | hc
    · rcases b64DataChars_mem k hk.2 c hc with ⟨v, hv, rfl⟩
      exact Or.inl (charOfSextet_mem_alphabet v hv)
    · exact Or.inr (b64PadChars_mem k c hc)

theorem C8_witness :
    pyUrlsafeB64Decode (b64EncodeBytes (List.replicate 32 0)) = some (List.replicate 32 0) :=
  (C8_key_encoding_roundtrip (List.replicate 32 0) (List.replicate 32 0)
      (by exact ⟨by decide, by decide⟩) (by exact ⟨by decide, by decide⟩)).1

/-- C10: the Restore endpoint saves the uploaded redacted artifact only after the store
lookup and the key decoding have both succeeded: every request that ends in
SessionNotFound or InvalidKeyFormat performs no filesystem write at all, and conversely
a request that wrote any file had a successful lookup and a successful key decode. -/
theorem C10_no_write_before_validation (st : RedisStore) (now : Nat)
    (fileName uuid1 docId : String) (k : List Char) (rec : Except String String) :
    ((unredact_endpoint st now fileName uuid1 docId k rec).response =
          .error .sessionNotFound ∨
      (unredact_endpoint st now fileName uuid1 docId k rec).response =
          .error .invalidKeyFormat →
      (unredact_endpoint st now fileName uuid1 docId k rec).writtenFiles = []) ∧
    ((unredact_endpoint st now fileName uuid1 docId k rec).writtenFiles ≠ [] →
      (st.get docId now).isSome ∧ (pyUrlsafeB64Decode k).isSome) := by
  rcases hg : st.get docId now with _ | meta
  · simp [unredact_endpoint, hg]
  · rcases hd : pyUrlsafeB64Decode k with _ | key
    · simp [unredact_endpoint, hg, hd]
    · rcases hu : unredact_document key meta rec with er | ok
      · simp [unredact_endpoint, hg, hd, hu]
      · simp [unredact_endpoint, hg, hd, hu]

theorem C10_witness :
    (unredact_endpoint ⟨[]⟩ 0 "f.pdf" "u10" "d10" [] (.ok "r.pdf")).writtenFiles = [] :=
  (C10_no_write_before_validation ⟨[]⟩ 0 "f.pdf" "u10" "d10" [] (.ok "r.pdf")).1
    (Or.inl rfl)

/-- C4, counterexample: a redaction whose engine extracted zero items returns a success
response that carries the encoded key although nothing was written to the store — so, as
stated, "a key is never returned to the caller for a session that was not actually
written to the store" is false of the code. -/
theorem C4_counterexample_key_without_store_write :
    (redact_llm_endpoint ⟨[]⟩ 0 "contract.pdf" "u4" "d4" (List.replicate 32 3)
        (.ok ("redacted_files/out4.pdf", [])) (.ok ())).response =
      .ok ⟨"redacted_files/out4.pdf", "d4", b64EncodeBytes (List.replicate 32 3)⟩ ∧
    (redact_llm_endpoint ⟨[]⟩ 0 "contract.pdf" "u4" "d4" (List.replicate 32 3)
        (.ok ("redacted_files/out4.pdf", [])) (.ok ())).store = ⟨[]⟩ := by
  exact ⟨rfl, rfl⟩

/-- C4, amended: whenever items were extracted and the store write succeeds, the success
response carries the (document_id, encoded key) pair, the entry is stored under the
document_id, and the issued key decrypts it back to exactly the extracted items (the
pair is usable); error responses carry only the failure detail and never a key; however,
when zero items were extracted, a key is still returned although no session was stored
(see the counterexample); for both engine variants. -/
theorem C4_amended_ticket_issuance (st : RedisStore) (now : Nat)
    (fileName uuid1 docId : String) (key : List Nat) (artifact : String) (pages : Pages)
    (hp : pages ≠ []) :
    (redact_llm_endpoint st now fileName uuid1 docId key (.ok (artifact, pages))
        (.ok ())).response = .ok ⟨artifact, docId, b64EncodeBytes key⟩ ∧
    (redact_llm_endpoint st now fileName uuid1 docId key (.ok (artifact, pages))
        (.ok ())).store.get docId now = some (encryptPages key pages) ∧
    (redact_classic_endpoint st now fileName uuid1 docId key (.ok (artifact, pages))
        (.ok ())).response = .ok ⟨artifact, docId, b64EncodeBytes key⟩ ∧
    (redact_classic_endpoint st now fileName uuid1 docId key (.ok (artifact, pages))
        (.ok ())).store.get docId now = some (encryptPages key pages) ∧
    decryptPages key (encryptPages key pages) = some pages ∧
    (∀ (e : String) (storeWrite : Except String Unit),
      (redact_llm_endpoint st now fileName uuid1 docId key (.error e) storeWrite).response =
        .error (.serverError ("An error occurred: " ++ e))) ∧
    ∀ m : String,
      (redact_llm_endpoint st now fileName uuid1 docId key (.ok (artifact, pages))
          (.error m)).response = .error (.serverError ("An error occurred: " ++ m)) := by
  have hne : (encryptPages key pages).isEmpty = false := by
    rw [encryptPages_isEmpty]
    cases pages with
    | nil => exact absurd rfl hp
    | cons a l => rfl
  refine ⟨?_, ?_, ?_, ?_, decryptPages_encryptPages key pages, fun e sw => rfl, ?_⟩
  · simp [redact_llm_endpoint, redact_endpoint, process_document, hne]
  · simp [redact_llm_endpoint, redact_endpoint, process_document, hne,
      RedisStore.get_set_self]
  · simp [redact_classic_endpoint, redact_endpoint, process_document, hne]
  · simp [redact_classic_endpoint, redact_endpoint, process_document, hne,
      RedisStore.get_set_self]
  · intro m
    simp [redact_llm_endpoint, redact_endpoint, process_document, hne]

theorem C4_witness :
    (redact_llm_endpoint ⟨[]⟩ 0 "f.pdf" "u4b" "d4b" (List.replicate 32 4)
        (.ok ("redacted_files/out4b.pdf", [("1", [⟨"Eve", [5, 6, 7, 8]⟩])]))
        (.ok ())).response =
      .ok ⟨"redacted_files/out4b.pdf", "d4b", b64EncodeBytes (List.replicate 32 4)⟩ :=
  (C4_amended_ticket_issuance ⟨[]⟩ 0 "f.pdf" "u4b" "d4b" (List.replicate 32 4)
      "redacted_files/out4b.pdf" [("1", [⟨"Eve", [5, 6, 7, 8]⟩])] (by decide)).1

/-- C5, counterexample: the malformed key string "!!!!" (not a valid urlsafe base64
encoding: no character of it is in the alphabet) does not yield InvalidKeyFormat on
Restore with an existing session: Python b64decode discards the invalid characters and
silently decodes it to the empty byte string, so the request proceeds and fails only at
decryption, answered as a 500; also a well-formed encoding of the wrong length
("aGVsbG8=", five bytes) decodes without any error, so no length check exists. -/
theorem C5_counterexample_malformed_key_decodes :
    pyUrlsafeB64Decode "!!!!".toList = some [] ∧
    pyUrlsafeB64Decode "aGVsbG8=".toList = some [104, 101, 108, 108, 111] ∧
    unredact_endpoint
        ⟨[("d5", encryptPages (List.replicate 32 5) [("1", [⟨"Jane", [1, 2, 3, 4]⟩])], 86400)]⟩
        0 "red.pdf" "u5" "d5" "!!!!".toList (.ok "restored_red.pdf") =
      ⟨.error (.serverError "An error occurred during un-redaction: decryption failed"),
        ["temp_uploads/u5_red.pdf"], ["temp_uploads/u5_red.pdf"]⟩ := by
  refine ⟨by decide, by decide, by decide⟩

/-- C5, amended: a key string passed to Restore for an existing session yields
InvalidKeyFormat exactly when its urlsafe base64 decoding raises (and then no file is
written and nothing is returned); malformed key strings that nevertheless decode —
characters outside the alphabet are discarded and the byte length is never checked —
instead proceed and fail at decryption, answered as a 500 un-redaction error; neither
case crashes or returns a silent empty result. -/
theorem C5_amended_malformed_key (st : RedisStore) (now : Nat)
    (fileName uuid1 docId : String) (ks : List Char) (rec : Except String String)
    (meta : EncPages) (key : List Nat)
    (hmeta : st.get docId now = some meta) :
    (pyUrlsafeB64Decode ks = none →
      unredact_endpoint st now fileName uuid1 docId ks rec =
        ⟨.error .invalidKeyFormat, [], []⟩) ∧
    (pyUrlsafeB64Decode ks = some key → decryptPages key meta = none →
      unredact_endpoint st now fileName uuid1 docId ks rec =
        ⟨.error (.serverError "An error occurred during un-redaction: decryption failed"),
          ["temp_uploads/" ++ uuid1 ++ "_" ++ fileName],
          ["temp_uploads/" ++ uuid1 ++ "_" ++ fileName]⟩) := by
  constructor
  · intro hd
    simp [unredact_endpoint, hmeta, hd]
  · intro hd hdec
    simp [unredact_endpoint, hmeta, hd, unredact_document, hdec]

theorem C5_witness :
    unredact_endpoint
        ⟨[("d5b", encryptPages (List.replicate 32 5) [("1", [⟨"Jane", [1, 2, 3, 4]⟩])], 86400)]⟩
        0 "red.pdf" "u5b" "d5b" "a".toList (.ok "restored_red.pdf") =
      ⟨.error .invalidKeyFormat, [], []⟩ :=
  (C5_amended_malformed_key
      ⟨[("d5b", encryptPages (List.replicate 32 5) [("1", [⟨"Jane", [1, 2, 3, 4]⟩])], 86400)]⟩
      0 "red.pdf" "u5b" "d5b" "a".toList (.ok "restored_red.pdf")
      (encryptPages (List.replicate 32 5) [("1", [⟨"Jane", [1, 2, 3, 4]⟩])])
      [] (by decide)).1 (by decide)

/-- C1: evaluation at the failing input.  A redaction with one extracted item writes the
session to the redis store, where the issued key decrypts it back to exactly the
extracted (text, bbox) items — but the Decrypt endpoint reads ENCRYPTED_DATA_STORE, a
structure distinct from the redis store that no endpoint ever writes (it is empty in
every reachable state), so Decrypt with the issued (document_id, key) answers
SessionNotFound instead of returning the extracted items; the classic variant stores
identically and fails identically. -/
theorem C1_bug_decrypt_reads_unwritten_store :
    (redact_llm_endpoint ⟨[]⟩ 0 "contract.pdf" "u1" "d1" (List.replicate 32 1)
        (.ok ("redacted_files/redacted_contract.pdf",
          [("1", [⟨"John Smith", [10, 20, 110, 40]⟩])])) (.ok ())).store.get "d1" 0 =
      some (encryptPages (List.replicate 32 1) [("1", [⟨"John Smith", [10, 20, 110, 40]⟩])]) ∧
    (redact_classic_endpoint ⟨[]⟩ 0 "contract.pdf" "u1" "d1" (List.replicate 32 1)
        (.ok ("redacted_files/redacted_contract.pdf",
          [("1", [⟨"John Smith", [10, 20, 110, 40]⟩])])) (.ok ())).store.get "d1" 0 =
      some (encryptPages (List.replicate 32 1) [("1", [⟨"John Smith", [10, 20, 110, 40]⟩])]) ∧
    decryptPages (List.replicate 32 1)
        (encryptPages (List.replicate 32 1) [("1", [⟨"John Smith", [10, 20, 110, 40]⟩])]) =
      some [("1", [⟨"John Smith", [10, 20, 110, 40]⟩])] ∧
    decrypt_endpoint [] "d1" (b64EncodeBytes (List.replicate 32 1)) =
      .error .sessionNotFound := by
  refine ⟨by decide, by decide, by decide, rfl⟩

/-- C2: evaluation at the failing input.  With a session stored under "d2" (issued key:
32 bytes of value 1), Decrypt with a different well-formed key answers SessionNotFound —
not DecryptionFailed and not InvalidKeyFormat — because the Decrypt endpoint reads the
never-written ENCRYPTED_DATA_STORE instead of the redis store the redaction wrote; no
plaintext is returned, but the error kind contradicts the claim. -/
theorem C2_bug_wrong_key_gives_not_found :
    (redact_llm_endpoint ⟨[]⟩ 0 "contract.pdf" "u2" "d2" (List.replicate 32 1)
        (.ok ("redacted_files/out2.pdf", [("1", [⟨"Ada", [9, 9, 9, 9]⟩])]))
        (.ok ())).store.get "d2" 0 =
      some (encryptPages (List.replicate 32 1) [("1", [⟨"Ada", [9, 9, 9, 9]⟩])]) ∧
    (List.replicate 32 2 : List Nat) ≠ List.replicate 32 1 ∧
    decrypt_endpoint [] "d2" (b64EncodeBytes (List.replicate 32 2)) =
      .error .sessionNotFound ∧
    HErr.sessionNotFound ≠ HErr.decryptionFailed ∧
    HErr.sessionNotFound ≠ HErr.invalidKeyFormat := by
  refine ⟨by decide, by decide, rfl, by decide, by decide⟩

/-- C9: evaluation at the failing input.  When the engine has produced the redacted
artifact and extracted items but the store write then fails, the request answers a 500
and schedules only the uploaded file for deletion: the produced artifact, although
written, is not in the scheduled cleanup — so cleanup is not guaranteed on every exit
path as the claim states. -/
theorem C9_bug_artifact_leak_on_store_failure :
    (redact_llm_endpoint ⟨[]⟩ 0 "contract.pdf" "u9" "d9" (List.replicate 32 9)
        (.ok ("redacted_files/out9.pdf", [("1", [⟨"Bob", [0, 0, 1, 1]⟩])]))
        (.error "redis connection refused")).writtenFiles =
      ["temp_uploads/u9_contract.pdf", "redacted_files/out9.pdf"] ∧
    (redact_llm_endpoint ⟨[]⟩ 0 "contract.pdf" "u9" "d9" (List.replicate 32 9)
        (.ok ("redacted_files/out9.pdf", [("1", [⟨"Bob", [0, 0, 1, 1]⟩])]))
        (.error "redis connection refused")).cleanupScheduled =
      ["temp_uploads/u9_contract.pdf"] ∧
    "redacted_files/out9.pdf" ∉
      (redact_llm_endpoint ⟨[]⟩ 0 "contract.pdf" "u9" "d9" (List.replicate 32 9)
        (.ok ("redacted_files/out9.pdf", [("1", [⟨"Bob", [0, 0, 1, 1]⟩])]))
        (.error "redis connection refused")).cleanupScheduled := by
  refine ⟨by decide, by decide, by decide⟩
